import Mathlib

/-!
Verification of the release-window filtering core of
`weekly_playlist_creator.py`.

The embedding models the Python source directly:

* `matchAll` is a backtracking matcher for the restricted class of regular
  expressions used by the script (character-class repetitions, literals and
  alternations of fixed-shape branches).  It returns the list of all matches
  of the pattern against a prefix of the input, ordered by the standard
  backtracking preference of Python's `re` module (greedy repetition tries
  longer first, alternatives are tried left to right); the engine's first
  element is the match `re.search` reports for a `^`-anchored pattern.
* `trackPattern` transcribes the regex of `extract_track_info_with_dates`;
  `ymdPattern` transcribes the regex CPython's `_strptime` compiles for the
  format `%Y-%m-%d` (`Y: \d\d\d\d`, `m: 1[0-2]|0[1-9]|[1-9]`,
  `d: 3[01]|[12]\d|0[1-9]|[1-9]`).
* Character classes and case folding are modelled over ASCII (the script's
  data is ASCII); Python's `datetime` values are modelled by `Datetime`
  with field-wise lexicographic comparison, exactly how naive `datetime`
  objects compare.
* The ambient clock read by `get_cutoff_date` is modelled by passing the
  cutoff instant explicitly.
-/

namespace WeeklyPlaylist

/-- ASCII model of Python's whitespace class (for `\s`, `str.strip`). -/
def pyIsSpace (c : Char) : Bool :=
  c == ' ' || c == '\t' || c == '\n' || c == '\x0b' || c == '\x0c' || c == '\r'

/-- ASCII model of `\d` / `[0-9]`. -/
def pyIsDigit (c : Char) : Bool := '0' ≤ c && c ≤ '9'

/-- The class `[a-zA-Z0-9]` of the track-id group. -/
def isAlnumAscii (c : Char) : Bool :=
  ('a' ≤ c && c ≤ 'z') || ('A' ≤ c && c ≤ 'Z') || pyIsDigit c

/-- ASCII model of `str.lower` on one character. -/
def pyToLower (c : Char) : Char :=
  if 'A' ≤ c && c ≤ 'Z' then Char.ofNat (c.toNat + 32) else c

/-- ASCII model of `str.lower`. -/
def pyLower (s : String) : String := ⟨s.data.map pyToLower⟩

/-- Model of `str.strip` on a character list. -/
def stripL (l : List Char) : List Char :=
  ((l.dropWhile pyIsSpace).reverse.dropWhile pyIsSpace).reverse

/-- Model of `str.strip`. -/
def pyStrip (s : String) : String := ⟨stripL s.data⟩

/-- Model of `str.split` with separator `"\n"` (Python keeps empty pieces). -/
def splitLines : List Char → List (List Char)
  | [] => [[]]
  | c :: cs =>
    let r := splitLines cs
    if c = '\n' then [] :: r
    else
      match r with
      | [] => [[c]]
      | h :: t => (c :: h) :: t

/-- One fixed-width element of a regex alternative: a literal character or a
single character of a class. -/
inductive SItem where
  | lit : Char → SItem
  | cls : (Char → Bool) → SItem

/-- Match a fixed-shape branch against a prefix of the input, returning the
consumed characters and the remainder. -/
def matchFixed : List SItem → List Char → Option (List Char × List Char)
  | [], s => some ([], s)
  | _ :: _, [] => none
  | SItem.lit c :: rest, x :: xs =>
    if x = c then (matchFixed rest xs).map (fun pr => (x :: pr.1, pr.2)) else none
  | SItem.cls p :: rest, x :: xs =>
    if p x then (matchFixed rest xs).map (fun pr => (x :: pr.1, pr.2)) else none

/-- A regex element: a literal, a (possibly capturing) greedy repetition of a
character class with bounds `lo`/`hi` (`hi = none` meaning unbounded, so
`x*` is `rep _ p 0 none` and `x+` is `rep _ p 1 none`), or a (possibly
capturing) alternation of fixed-shape branches tried left to right. -/
inductive Item where
  | lit : Char → Item
  | rep : Option Nat → (Char → Bool) → Nat → Option Nat → Item
  | alt : Option Nat → List (List SItem) → Item

/-- Number of leading characters satisfying `p`. -/
def leadCount (p : Char → Bool) : List Char → Nat
  | [] => 0
  | c :: cs => if p c then leadCount p cs + 1 else 0

/-- Record a capture group (when the element is capturing) in a match result. -/
def addCap (cap : Option Nat) (m : List Char)
    (res : List (Nat × List Char) × List Char) : List (Nat × List Char) × List Char :=
  match cap with
  | none => res
  | some i => ((i, m) :: res.1, res.2)

/-- All matches of the pattern against a prefix of the input, in backtracking
preference order.  Each match is its list of `(group, text)` captures
together with the unconsumed remainder of the input. -/
def matchAll : List Item → List Char → List (List (Nat × List Char) × List Char)
  | [], s => [([], s)]
  | Item.lit _ :: _, [] => []
  | Item.lit c :: rest, x :: xs => if x = c then matchAll rest xs else []
  | Item.rep cap p lo hi :: rest, s =>
    let n := leadCount p s
    let kmax := match hi with | none => n | some h => min h n
    ((List.range (kmax + 1 - lo)).map (fun i => kmax - i)).flatMap
      (fun k => (matchAll rest (s.drop k)).map (addCap cap (s.take k)))
  | Item.alt cap alts :: rest, s =>
    alts.flatMap (fun b =>
      match matchFixed b s with
      | none => []
      | some (m, r) => (matchAll rest r).map (addCap cap m))

/-- Text of capture group `i` in a match result. -/
def getCap (i : Nat) (caps : List (Nat × List Char)) : Option (List Char) :=
  (caps.find? (fun pr => pr.1 == i)).map (fun pr => pr.2)

/-- `\s*` -/
def ws0 : Item := Item.rep none pyIsSpace 0 none

/-- `\s+` -/
def ws1 : Item := Item.rep none pyIsSpace 1 none

/-- A sequence of literal items for a fixed string of the pattern. -/
def lits (l : List Char) : List Item := l.map Item.lit

/-- The branches of the date-token group
`([0-9]{4}-[0-9]{2}-[0-9]{2}|[0-9]{4}-[0-9]{2}|[0-9]{4}|Unknown)`. -/
def dateAltBranches : List (List SItem) :=
  [ List.replicate 4 (SItem.cls pyIsDigit) ++ [SItem.lit '-'] ++
      List.replicate 2 (SItem.cls pyIsDigit) ++ [SItem.lit '-'] ++
      List.replicate 2 (SItem.cls pyIsDigit),
    List.replicate 4 (SItem.cls pyIsDigit) ++ [SItem.lit '-'] ++
      List.replicate 2 (SItem.cls pyIsDigit),
    List.replicate 4 (SItem.cls pyIsDigit),
    List.map SItem.lit ['U', 'n', 'k', 'n', 'o', 'w', 'n'] ]

/-- Transcription of the track-line regex of `extract_track_info_with_dates`:
`^\d+\.\s*"([^"]+)"\s+by\s+([^(]+)\s*\([^)]+\)\s*-\s*Released:\s*(...)\s*-\s*ID:\s*([a-zA-Z0-9]+)`
with capture groups 1–4 for title, artist, date token and id. -/
def trackPattern : List Item :=
  [Item.rep none pyIsDigit 1 none, Item.lit '.', ws0, Item.lit '"',
   Item.rep (some 1) (fun c => c != '"') 1 none, Item.lit '"', ws1] ++
  lits ['b', 'y'] ++
  [ws1, Item.rep (some 2) (fun c => c != '(') 1 none, ws0, Item.lit '(',
   Item.rep none (fun c => c != ')') 1 none, Item.lit ')', ws0, Item.lit '-', ws0] ++
  lits ['R', 'e', 'l', 'e', 'a', 's', 'e', 'd', ':'] ++
  [ws0, Item.alt (some 3) dateAltBranches, ws0, Item.lit '-', ws0] ++
  lits ['I', 'D', ':'] ++
  [ws0, Item.rep (some 4) isAlnumAscii 1 none]

/-- A parsed track record, as built by `extract_track_info_with_dates`. -/
structure Track where
  title : String
  artist : String
  release_date : String
  id : String
deriving DecidableEq

/-- Model of `extract_track_info_with_dates`: split the response text into
lines, keep the lines matched by the track-line regex (anchored at the start
of the line, as `re.search` with a `^`-anchored pattern), and build a record
from the four stripped capture groups. -/
def extract_track_info_with_dates (searchText : String) : List Track :=
  (splitLines searchText.data).filterMap (fun line =>
    match (matchAll trackPattern line).head? with
    | none => none
    | some (caps, _) =>
      match getCap 1 caps, getCap 2 caps, getCap 3 caps, getCap 4 caps with
      | some t, some a, some r, some i =>
        some ⟨⟨stripL t⟩, ⟨stripL a⟩, ⟨stripL r⟩, ⟨stripL i⟩⟩
      | _, _, _, _ => none)

/-- The `%m` group of `_strptime`: `1[0-2]|0[1-9]|[1-9]`. -/
def monthItem : Item :=
  Item.alt (some 2)
    [[SItem.lit '1', SItem.cls (fun c => '0' ≤ c && c ≤ '2')],
     [SItem.lit '0', SItem.cls (fun c => '1' ≤ c && c ≤ '9')],
     [SItem.cls (fun c => '1' ≤ c && c ≤ '9')]]

/-- The `%d` group of `_strptime`: `3[01]|[12]\d|0[1-9]|[1-9]`. -/
def dayItem : Item :=
  Item.alt (some 3)
    [[SItem.lit '3', SItem.cls (fun c => c == '0' || c == '1')],
     [SItem.cls (fun c => c == '1' || c == '2'), SItem.cls pyIsDigit],
     [SItem.lit '0', SItem.cls (fun c => '1' ≤ c && c ≤ '9')],
     [SItem.cls (fun c => '1' ≤ c && c ≤ '9')]]

/-- Transcription of the regex CPython's `_strptime` compiles for the format
string `%Y-%m-%d`. -/
def ymdPattern : List Item :=
  [Item.rep (some 1) pyIsDigit 4 (some 4), Item.lit '-', monthItem, Item.lit '-', dayItem]

/-- Decimal value of an ASCII digit. -/
def digitVal (c : Char) : Nat := c.toNat - 48

/-- Decimal value of a digit string (Python `int`). -/
def digitsVal (l : List Char) : Nat := l.foldl (fun a c => a * 10 + digitVal c) 0

/-- Model of `datetime.strptime(s, "%Y-%m-%d")` up to the numeric fields:
match the compiled regex against a prefix, fail when unconverted data
remains, and read the three groups as decimal numbers. -/
def strptimeYmd (s : String) : Option (Nat × Nat × Nat) :=
  match (matchAll ymdPattern s.data).head? with
  | none => none
  | some (caps, rest) =>
    if rest.isEmpty then
      match getCap 1 caps, getCap 2 caps, getCap 3 caps with
      | some y, some m, some d => some (digitsVal y, digitsVal m, digitsVal d)
      | _, _, _ => none
    else none

/-- Gregorian leap-year rule, as used by Python's `datetime`. -/
def isLeapYear (y : Nat) : Bool := y % 4 == 0 && (y % 100 != 0 || y % 400 == 0)

/-- Length of a month, as validated by Python's `datetime` constructor. -/
def daysInMonth (y m : Nat) : Nat :=
  if m = 2 then (if isLeapYear y then 29 else 28)
  else if m = 4 ∨ m = 6 ∨ m = 9 ∨ m = 11 then 30 else 31

/-- A naive `datetime.datetime` value. -/
structure Datetime where
  year : Nat
  month : Nat
  day : Nat
  hour : Nat
  minute : Nat
  second : Nat
  microsecond : Nat
deriving DecidableEq

/-- Model of the `datetime(year, month, day)` constructor: `ValueError`
(`none`) outside `MINYEAR..MAXYEAR` or outside the month's day range. -/
def mkDatetime (y m d : Nat) : Option Datetime :=
  if 1 ≤ y ∧ y ≤ 9999 ∧ 1 ≤ m ∧ m ≤ 12 ∧ 1 ≤ d ∧ d ≤ daysInMonth y m then
    some ⟨y, m, d, 0, 0, 0, 0⟩
  else none

/-- Lexicographic comparison of equal-length numeric tuples. -/
def lexLe : List Nat → List Nat → Bool
  | [], [] => true
  | a :: l1, b :: l2 => if a < b then true else if b < a then false else lexLe l1 l2
  | _, _ => false

/-- Comparison of naive `datetime` values (field-wise lexicographic, which is
how Python compares them). -/
def Datetime.le (a b : Datetime) : Bool :=
  lexLe [a.year, a.month, a.day, a.hour, a.minute, a.second, a.microsecond]
        [b.year, b.month, b.day, b.hour, b.minute, b.second, b.microsecond]

/-- The literal `'Unknown'` the script compares date tokens against. -/
def unknownTok : String := "Unknown"

/-- The literal `'-01'` appended to 7-character tokens. -/
def dash01 : String := "-01"

/-- The literal `'-01-01'` appended to 4-character tokens. -/
def dash0101 : String := "-01-01"

/-- Model of `parse_spotify_date`: strip, map `'Unknown'` to `none`,
dispatch on the token length, run `strptime` with the completed token, and
absorb every failure (`ValueError`) into `none`. -/
def parse_spotify_date (dateStr : String) : Option Datetime :=
  let ds := pyStrip dateStr
  if ds = unknownTok then none
  else if ds.length = 10 then
    (strptimeYmd ds).bind (fun t => mkDatetime t.1 t.2.1 t.2.2)
  else if ds.length = 7 then
    (strptimeYmd (ds ++ dash01)).bind (fun t => mkDatetime t.1 t.2.1 t.2.2)
  else if ds.length = 4 then
    (strptimeYmd (ds ++ dash0101)).bind (fun t => mkDatetime t.1 t.2.1 t.2.2)
  else none

/-- Model of `is_recent_release`. -/
def is_recent_release (releaseDateStr : String) (cutoffDate : Datetime) : Bool :=
  match parse_spotify_date releaseDateStr with
  | none => false
  | some d => Datetime.le cutoffDate d

/-- The artist-attribution check of `search_artist_tracks`:
`artist.lower() in track['artist'].lower()`. -/
def artistMatch (artist : String) (t : Track) : Bool :=
  ((pyLower t.artist).data.tails.any (fun suf => (pyLower artist).data.isPrefixOf suf))

/-- The body of the track loop of `search_artist_tracks`: append the track to
the accumulator when it is attributed to the artist, recent, and its id is
not already accumulated. -/
def search_step (artist : String) (cutoff : Datetime) (found : List Track)
    (t : Track) : List Track :=
  if artistMatch artist t && is_recent_release t.release_date cutoff &&
      !(found.any (fun f => f.id == t.id)) then
    found ++ [t]
  else found

/-- The per-artist selection on a single merged candidate sequence (the
`selectForArtist` operation of the spec): accumulate in discovery order with
the filter-and-dedup step, then cap at 3 (`found_tracks[:3]`). -/
def selectForArtist (cands : List Track) (artist : String) (cutoff : Datetime) :
    List Track :=
  (cands.foldl (search_step artist cutoff) []).take 3

/-- Model of `search_artist_tracks`, parameterised by the list of search
response texts (one per query) and by the cutoff instant that the script
reads from the clock via `get_cutoff_date`. -/
def search_artist_tracks (searchTexts : List String) (artist : String)
    (cutoff : Datetime) : List Track :=
  (searchTexts.foldl
    (fun found text => (extract_track_info_with_dates text).foldl
      (search_step artist cutoff) found) []).take 3

/-- The track-id accumulation of `create_weekly_playlist`: the flat list
`track_ids_to_add` handed to `addTracksToPlaylist`, for a run over `artists`
where each artist's queries produce the response texts `responses artist`. -/
def create_weekly_playlist_track_ids (artists : List String)
    (responses : String → List String) (cutoff : Datetime) : List String :=
  (artists.map (fun a => (search_artist_tracks (responses a) a cutoff).map Track.id)).flatten

/-! Specification-side helpers for stating the date-normalization claims:
decimal rendering of calendar components. -/

/-- The ASCII digit character of a value below 10. -/
def dChar : Nat → Char
  | 0 => '0' | 1 => '1' | 2 => '2' | 3 => '3' | 4 => '4'
  | 5 => '5' | 6 => '6' | 7 => '7' | 8 => '8' | _ => '9'

/-- Two-digit zero-padded decimal rendering. -/
def pad2 (n : Nat) : List Char := [dChar (n / 10 % 10), dChar (n % 10)]

/-- Four-digit zero-padded decimal rendering. -/
def pad4 (n : Nat) : List Char :=
  [dChar (n / 1000 % 10), dChar (n / 100 % 10), dChar (n / 10 % 10), dChar (n % 10)]

/-- A well-formed 10-character token `YYYY-MM-DD`. -/
def render10 (y m d : Nat) : String := ⟨pad4 y ++ '-' :: (pad2 m ++ '-' :: pad2 d)⟩

/-- A well-formed 7-character token `YYYY-MM`. -/
def render7 (y m : Nat) : String := ⟨pad4 y ++ '-' :: pad2 m⟩

/-- A well-formed 4-character token `YYYY`. -/
def render4 (y : Nat) : String := ⟨pad4 y⟩

/-! Concrete inputs used by the test-vector, scenario and counterexample
theorems below. -/

/-- A cutoff instant: midnight, December 29 2024. -/
def cutoff0 : Datetime := ⟨2024, 12, 29, 0, 0, 0, 0⟩

def futureName : String := "Future"

def metroName : String := "Metro Boomin"

def dateMar15 : String := "2025-03-15"

def dateMar : String := "2025-03"

def dateY2025 : String := "2025"

def emptyStr : String := ""

def badDate13 : String := "2025-13-01"

def dateJan1 : String := "2025-01-01"

/-- A search-result line for a collaboration track, attributed to two of the
queried artists. -/
def collabLine : String :=
  "1. \"Good Vibes\" by Metro Boomin, Future (3:20) - Released: 2025-01-01 - ID: abc123"

/-- The track record parsed from `collabLine`. -/
def collabTrack : Track := ⟨"Good Vibes", "Metro Boomin, Future", "2025-01-01", "abc123"⟩

/-- A line matching the track-line pattern shape whose date token has the
malformed month 13. -/
def c2Line : String := "1. \"A\" by B (x) - Released: 2025-13-01 - ID: abc"

/-- The track record parsed from `c2Line`. -/
def c2Track : Track := ⟨"A", "B", "2025-13-01", "abc"⟩

/-- A line whose id token `abc-123` contains a non-alphanumeric character. -/
def c10Line : String :=
  "1. \"Good Vibes\" by Future (3:20) - Released: 2025-01-01 - ID: abc-123"

/-- The track record parsed from `c10Line`: the id is truncated to `abc`. -/
def c10Track : Track := ⟨"Good Vibes", "Future", "2025-01-01", "abc"⟩

/-- A second truncation example: id token `a1b2!zz`. -/
def c10LineB : String := "7. \"X\" by Y (0:30) - Released: 2024-12 - ID: a1b2!zz"

/-- The track record parsed from `c10LineB`: the id is truncated to `a1b2`. -/
def c10TrackB : Track := ⟨"X", "Y", "2024-12", "a1b2"⟩

/-! ### Facts about the matcher on well-formed date tokens -/

lemma dChar_digit (k : Nat) (h : k < 10) : pyIsDigit (dChar k) = true := by
  interval_cases k <;> decide

lemma dChar_toNat (k : Nat) (h : k < 10) : (dChar k).toNat = 48 + k := by
  interval_cases k <;> decide

lemma dChar_not_space (k : Nat) (h : k < 10) : pyIsSpace (dChar k) = false := by
  interval_cases k <;> decide

lemma dChar_ne_U (k : Nat) (h : k < 10) : dChar k ≠ 'U' := by
  interval_cases k <;> decide

lemma matchAll_lit (c : Char) (rest : List Item) (s : List Char) :
    matchAll (Item.lit c :: rest) (c :: s) = matchAll rest s := by
  simp [matchAll]

lemma matchAll_rep44 (i : Nat) (p : Char → Bool) (a1 a2 a3 a4 c : Char)
    (cs : List Char) (rest : List Item)
    (h1 : p a1 = true) (h2 : p a2 = true) (h3 : p a3 = true) (h4 : p a4 = true)
    (hc : p c = false) :
    matchAll (Item.rep (some i) p 4 (some 4) :: rest) (a1 :: a2 :: a3 :: a4 :: c :: cs) =
      (matchAll rest (c :: cs)).map (addCap (some i) [a1, a2, a3, a4]) := by
  have hl : leadCount p (a1 :: a2 :: a3 :: a4 :: c :: cs) = 4 := by
    simp [leadCount, h1, h2, h3, h4, hc]
  simp [matchAll, hl, List.range_succ]

/-- The month-dash-day part of the `%Y-%m-%d` regex on a well-formed
`MM-DD` suffix: the preferred match consumes everything and captures the two
groups. -/
lemma matchAll_monthDay (m d : Nat) (hm1 : 1 ≤ m) (hm : m ≤ 12) (hd1 : 1 ≤ d)
    (hd : d ≤ 31) :
    (matchAll [monthItem, Item.lit '-', dayItem] (pad2 m ++ '-' :: pad2 d)).head? =
      some ([(2, pad2 m), (3, pad2 d)], []) := by
  interval_cases m <;> interval_cases d <;> decide

lemma digitsVal_pad4 (y : Nat) (hy : y ≤ 9999) : digitsVal (pad4 y) = y := by
  have t1 := dChar_toNat (y / 1000 % 10) (Nat.mod_lt _ (by omega))
  have t2 := dChar_toNat (y / 100 % 10) (Nat.mod_lt _ (by omega))
  have t3 := dChar_toNat (y / 10 % 10) (Nat.mod_lt _ (by omega))
  have t4 := dChar_toNat (y % 10) (Nat.mod_lt _ (by omega))
  simp [digitsVal, pad4, digitVal, t1, t2, t3, t4]
  omega

lemma digitsVal_pad2 (m : Nat) (hm : m ≤ 99) : digitsVal (pad2 m) = m := by
  have t1 := dChar_toNat (m / 10 % 10) (Nat.mod_lt _ (by omega))
  have t2 := dChar_toNat (m % 10) (Nat.mod_lt _ (by omega))
  simp [digitsVal, pad2, digitVal, t1, t2]
  omega

/-- `strptime` with format `%Y-%m-%d` succeeds on every well-formed
`YYYY-MM-DD` token whose month is 1–12 and day 1–31, returning the three
numeric fields. -/
lemma strptimeYmd_render (y m d : Nat) (hy : y ≤ 9999) (hm1 : 1 ≤ m) (hm : m ≤ 12)
    (hd1 : 1 ≤ d) (hd : d ≤ 31) :
    strptimeYmd ⟨pad4 y ++ '-' :: (pad2 m ++ '-' :: pad2 d)⟩ = some (y, m, d) := by
  have hmd := matchAll_monthDay m d hm1 hm hd1 hd
  have hrep := matchAll_rep44 1 pyIsDigit (dChar (y / 1000 % 10)) (dChar (y / 100 % 10))
    (dChar (y / 10 % 10)) (dChar (y % 10)) '-' (pad2 m ++ '-' :: pad2 d)
    [Item.lit '-', monthItem, Item.lit '-', dayItem]
    (dChar_digit _ (Nat.mod_lt _ (by omega))) (dChar_digit _ (Nat.mod_lt _ (by omega)))
    (dChar_digit _ (Nat.mod_lt _ (by omega))) (dChar_digit _ (Nat.mod_lt _ (by omega)))
    (by decide)
  unfold strptimeYmd
  have hdata : (⟨pad4 y ++ '-' :: (pad2 m ++ '-' :: pad2 d)⟩ : String).data =
      dChar (y / 1000 % 10) :: dChar (y / 100 % 10) :: dChar (y / 10 % 10) ::
        dChar (y % 10) :: '-' :: (pad2 m ++ '-' :: pad2 d) := rfl
  rw [hdata, show ymdPattern =
    Item.rep (some 1) pyIsDigit 4 (some 4) ::
      [Item.lit '-', monthItem, Item.lit '-', dayItem] from rfl, hrep,
    List.head?_map, matchAll_lit, hmd]
  simp [addCap, getCap, digitsVal_pad2 m (by omega), digitsVal_pad2 d (by omega)]
  exact digitsVal_pad4 y hy

/-! ### Facts about stripping and the date dispatcher -/

lemma dropWhile_of_all_false (p : Char → Bool) (l : List Char)
    (h : ∀ c ∈ l, p c = false) : l.dropWhile p = l := by
  cases l with
  | nil => rfl
  | cons a t => simp [List.dropWhile_cons, h a (by simp)]

lemma stripL_eq_self (l : List Char) (h : ∀ c ∈ l, pyIsSpace c = false) :
    stripL l = l := by
  unfold stripL
  rw [dropWhile_of_all_false pyIsSpace l h,
    dropWhile_of_all_false pyIsSpace l.reverse (by simpa using h), List.reverse_reverse]

lemma nospace_render10 (y m d : Nat) :
    ∀ c ∈ pad4 y ++ '-' :: (pad2 m ++ '-' :: pad2 d), pyIsSpace c = false := by
  intro c hc
  simp [pad4, pad2] at hc
  rcases hc with rfl | rfl | rfl | rfl | rfl | rfl | rfl | rfl | rfl | rfl <;>
    first
      | exact dChar_not_space _ (Nat.mod_lt _ (by omega))
      | decide

lemma nospace_render7 (y m : Nat) :
    ∀ c ∈ pad4 y ++ '-' :: pad2 m, pyIsSpace c = false := by
  intro c hc
  simp [pad4, pad2] at hc
  rcases hc with rfl | rfl | rfl | rfl | rfl | rfl | rfl <;>
    first
      | exact dChar_not_space _ (Nat.mod_lt _ (by omega))
      | decide

lemma nospace_render4 (y : Nat) : ∀ c ∈ pad4 y, pyIsSpace c = false := by
  intro c hc
  simp [pad4] at hc
  rcases hc with rfl | rfl | rfl | rfl <;>
    exact dChar_not_space _ (Nat.mod_lt _ (by omega))

lemma daysInMonth_le_31 (y m : Nat) : daysInMonth y m ≤ 31 := by
  unfold daysInMonth
  split <;> [skip; split] <;> first | split <;> omega | omega

lemma daysInMonth_pos (y m : Nat) : 1 ≤ daysInMonth y m := by
  unfold daysInMonth
  split <;> [skip; split] <;> first | split <;> omega | omega

/-- `parse_spotify_date` maps every well-formed calendar-valid 10-character
token to the exact date at midnight. -/
lemma parse_render10 (y m d : Nat) (hy1 : 1 ≤ y) (hy : y ≤ 9999) (hm1 : 1 ≤ m)
    (hm : m ≤ 12) (hd1 : 1 ≤ d) (hd : d ≤ daysInMonth y m) :
    parse_spotify_date (render10 y m d) = some ⟨y, m, d, 0, 0, 0, 0⟩ := by
  have hd31 : d ≤ 31 := le_trans hd (daysInMonth_le_31 y m)
  have hstrip : pyStrip (render10 y m d) = render10 y m d := by
    unfold pyStrip render10
    rw [show (⟨pad4 y ++ '-' :: (pad2 m ++ '-' :: pad2 d)⟩ : String).data =
      pad4 y ++ '-' :: (pad2 m ++ '-' :: pad2 d) from rfl,
      stripL_eq_self _ (nospace_render10 y m d)]
  have hlen : (render10 y m d).length = 10 := rfl
  have hne : render10 y m d ≠ unknownTok := by
    intro h
    rw [h] at hlen
    exact absurd hlen (by decide)
  unfold parse_spotify_date
  rw [hstrip, if_neg hne, if_pos hlen,
    show render10 y m d = (⟨pad4 y ++ '-' :: (pad2 m ++ '-' :: pad2 d)⟩ : String) from rfl,
    strptimeYmd_render y m d hy hm1 hm hd1 hd31]
  simp [mkDatetime, hy1, hy, hm1, hm, hd1, hd]

/-- `parse_spotify_date` maps every well-formed 7-character token to the
first of that month. -/
lemma parse_render7 (y m : Nat) (hy1 : 1 ≤ y) (hy : y ≤ 9999) (hm1 : 1 ≤ m)
    (hm : m ≤ 12) :
    parse_spotify_date (render7 y m) = some ⟨y, m, 1, 0, 0, 0, 0⟩ := by
  have hstrip : pyStrip (render7 y m) = render7 y m := by
    unfold pyStrip render7
    rw [show (⟨pad4 y ++ '-' :: pad2 m⟩ : String).data = pad4 y ++ '-' :: pad2 m from rfl,
      stripL_eq_self _ (nospace_render7 y m)]
  have hne : render7 y m ≠ unknownTok := by
    intro h
    have hdata := congrArg String.data h
    have hhead := congrArg (fun l => l.head?) hdata
    simp [render7, pad4, unknownTok] at hhead
    exact dChar_ne_U _ (Nat.mod_lt _ (by omega)) hhead
  have hlen7 : (render7 y m).length = 7 := rfl
  have hlen10 : ¬ (render7 y m).length = 10 := by rw [hlen7]; omega
  have happ : render7 y m ++ dash01 =
      (⟨pad4 y ++ '-' :: (pad2 m ++ '-' :: pad2 1)⟩ : String) := by
    have h1 : render7 y m ++ dash01 =
        (⟨(pad4 y ++ '-' :: pad2 m) ++ ['-', '0', '1']⟩ : String) := rfl
    rw [h1]
    have h2 : (pad4 y ++ '-' :: pad2 m) ++ ['-', '0', '1'] =
        pad4 y ++ '-' :: (pad2 m ++ '-' :: pad2 1) := by
      simp [pad2, dChar]
    rw [h2]
  unfold parse_spotify_date
  rw [hstrip, if_neg hne, if_neg hlen10, if_pos hlen7, happ,
    strptimeYmd_render y m 1 hy hm1 hm (le_refl 1) (by omega)]
  simp [mkDatetime, hy1, hy, hm1, hm, daysInMonth_pos y m]

/-- `parse_spotify_date` maps every well-formed 4-character token to
January 1 of that year. -/
lemma parse_render4 (y : Nat) (hy1 : 1 ≤ y) (hy : y ≤ 9999) :
    parse_spotify_date (render4 y) = some ⟨y, 1, 1, 0, 0, 0, 0⟩ := by
  have hstrip : pyStrip (render4 y) = render4 y := by
    unfold pyStrip render4
    rw [show (⟨pad4 y⟩ : String).data = pad4 y from rfl,
      stripL_eq_self _ (nospace_render4 y)]
  have hlen4 : (render4 y).length = 4 := rfl
  have hne : render4 y ≠ unknownTok := by
    intro h
    rw [h] at hlen4
    exact absurd hlen4 (by decide)
  have hlen10 : ¬ (render4 y).length = 10 := by rw [hlen4]; omega
  have hlen7 : ¬ (render4 y).length = 7 := by rw [hlen4]; omega
  have happ : render4 y ++ dash0101 =
      (⟨pad4 y ++ '-' :: (pad2 1 ++ '-' :: pad2 1)⟩ : String) := by
    have h1 : render4 y ++ dash0101 =
        (⟨pad4 y ++ ['-', '0', '1', '-', '0', '1']⟩ : String) := rfl
    rw [h1]
    have h2 : pad4 y ++ ['-', '0', '1', '-', '0', '1'] =
        pad4 y ++ '-' :: (pad2 1 ++ '-' :: pad2 1) := by
      simp [pad2, dChar]
    rw [h2]
  unfold parse_spotify_date
  rw [hstrip, if_neg hne, if_neg hlen10, if_neg hlen7, if_pos hlen4, happ,
    strptimeYmd_render y 1 1 hy (le_refl 1) (by omega) (le_refl 1) (by omega)]
  simp [mkDatetime, hy1, hy, daysInMonth_pos y 1]

lemma mkDatetime_sound (y m d : Nat) (dt : Datetime) (h : mkDatetime y m d = some dt) :
    1 ≤ dt.year ∧ dt.year ≤ 9999 ∧ 1 ≤ dt.month ∧ dt.month ≤ 12 ∧
      1 ≤ dt.day ∧ dt.day ≤ daysInMonth dt.year dt.month ∧
      dt.hour = 0 ∧ dt.minute = 0 ∧ dt.second = 0 ∧ dt.microsecond = 0 := by
  unfold mkDatetime at h
  split_ifs at h with hcond
  cases h
  simpa using hcond

/-- Every date `parse_spotify_date` returns is calendar-valid and lies at
midnight: malformed or calendar-invalid tokens can only map to `none`. -/
lemma parse_sound (s : String) (dt : Datetime)
    (h : parse_spotify_date s = some dt) :
    1 ≤ dt.year ∧ dt.year ≤ 9999 ∧ 1 ≤ dt.month ∧ dt.month ≤ 12 ∧
      1 ≤ dt.day ∧ dt.day ≤ daysInMonth dt.year dt.month ∧
      dt.hour = 0 ∧ dt.minute = 0 ∧ dt.second = 0 ∧ dt.microsecond = 0 := by
  simp only [parse_spotify_date] at h
  split_ifs at h <;>
    first
    | exact absurd h (by simp)
    | (rcases Option.bind_eq_some.mp h with ⟨t, ht, hmk⟩
       exact mkDatetime_sound t.1 t.2.1 t.2.2 dt hmk)

/-- Tokens of any other shape map to `none`. -/
lemma parse_other_shape (s : String) (hne : pyStrip s ≠ unknownTok)
    (h10 : (pyStrip s).length ≠ 10) (h7 : (pyStrip s).length ≠ 7)
    (h4 : (pyStrip s).length ≠ 4) : parse_spotify_date s = none := by
  unfold parse_spotify_date
  rw [if_neg hne, if_neg h10, if_neg h7, if_neg h4]

lemma lexLe_refl (l : List Nat) : lexLe l l = true := by
  induction l with
  | nil => rfl
  | cons a t ih => simp [lexLe, ih]

lemma Datetime.le_refl (d : Datetime) : Datetime.le d d = true := lexLe_refl _

/-! ### Facts about the per-artist accumulation loop -/

lemma foldl_step_sublist (a : String) (c : Datetime) :
    ∀ (cands acc : List Track), ∃ l,
      cands.foldl (search_step a c) acc = acc ++ l ∧ l.Sublist cands := by
  intro cands
  induction cands with
  | nil => exact fun acc => ⟨[], by simp, List.Sublist.refl _⟩
  | cons t ts ih =>
    intro acc
    rw [List.foldl_cons]
    cases hcond : (artistMatch a t && is_recent_release t.release_date c &&
        !(acc.any fun f => f.id == t.id)) with
    | true =>
      have hstep : search_step a c acc t = acc ++ [t] := by simp [search_step, hcond]
      rw [hstep]
      obtain ⟨l, he, hs⟩ := ih (acc ++ [t])
      exact ⟨t :: l, by rw [he]; simp, hs.cons₂ t⟩
    | false =>
      have hstep : search_step a c acc t = acc := by simp [search_step, hcond]
      rw [hstep]
      obtain ⟨l, he, hs⟩ := ih acc
      exact ⟨l, he, hs.cons t⟩

lemma mem_foldl_step (a : String) (c : Datetime) :
    ∀ (cands acc : List Track) (t : Track), t ∈ cands.foldl (search_step a c) acc →
      t ∈ acc ∨ (artistMatch a t = true ∧ is_recent_release t.release_date c = true) := by
  intro cands
  induction cands with
  | nil => exact fun acc t h => Or.inl h
  | cons x xs ih =>
    intro acc t h
    rw [List.foldl_cons] at h
    rcases ih (search_step a c acc x) t h with hmem | hprop
    · unfold search_step at hmem
      by_cases hcond : (artistMatch a x && is_recent_release x.release_date c &&
          !(acc.any fun f => f.id == x.id)) = true
      · rw [if_pos hcond] at hmem
        rcases List.mem_append.mp hmem with h1 | h2
        · exact Or.inl h1
        · have hx : t = x := by simpa using h2
          subst hx
          simp only [Bool.and_eq_true] at hcond
          exact Or.inr ⟨hcond.1.1, hcond.1.2⟩
      · rw [if_neg hcond] at hmem
        exact Or.inl hmem
    · exact Or.inr hprop

lemma nodup_foldl_step (a : String) (c : Datetime) :
    ∀ (cands acc : List Track), (acc.map Track.id).Nodup →
      ((cands.foldl (search_step a c) acc).map Track.id).Nodup := by
  intro cands
  induction cands with
  | nil => exact fun acc h => h
  | cons x xs ih =>
    intro acc h
    rw [List.foldl_cons]
    apply ih
    unfold search_step
    by_cases hcond : (artistMatch a x && is_recent_release x.release_date c &&
        !(acc.any fun f => f.id == x.id)) = true
    · rw [if_pos hcond]
      simp only [Bool.and_eq_true, Bool.not_eq_true'] at hcond
      have hany := hcond.2
      rw [List.any_eq_false] at hany
      have hnotin : x.id ∉ acc.map Track.id := by
        intro hin
        rcases List.mem_map.mp hin with ⟨f, hf, hfx⟩
        have := hany f hf
        simp [hfx] at this
      simp [List.nodup_append, h, hnotin]
    · rw [if_neg hcond]
      exact h

lemma foldl_step_replay (a : String) (c : Datetime) :
    ∀ (l acc : List Track),
      (∀ t ∈ l, artistMatch a t = true ∧ is_recent_release t.release_date c = true) →
      ((acc ++ l).map Track.id).Nodup →
      l.foldl (search_step a c) acc = acc ++ l := by
  intro l
  induction l with
  | nil => intro acc _ _; simp
  | cons x xs ih =>
    intro acc hall hnd
    rw [List.foldl_cons]
    have hx := hall x (by simp)
    have hnd' : (acc.map Track.id ++ x.id :: xs.map Track.id).Nodup := by
      simpa using hnd
    have hdis := (List.nodup_append.mp hnd').2.2
    have hnotin : (acc.any fun f => f.id == x.id) = false := by
      rw [List.any_eq_false]
      intro f hf
      simp only [beq_iff_eq]
      intro he
      exact hdis (List.mem_map_of_mem Track.id hf) (he ▸ List.mem_cons_self _ _)
    have hstep : search_step a c acc x = acc ++ [x] := by
      simp [search_step, hx.1, hx.2, hnotin]
    rw [hstep, ih (acc ++ [x]) (fun t ht => hall t (by simp [ht])) (by simpa using hnd)]
    simp

lemma selectForArtist_nodup (cands : List Track) (a : String) (c : Datetime) :
    ((selectForArtist cands a c).map Track.id).Nodup := by
  unfold selectForArtist
  rw [List.map_take]
  exact List.Nodup.sublist (List.take_sublist _ _) (nodup_foldl_step a c cands [] (by simp))

lemma foldl_nested_flatten (a : String) (c : Datetime) :
    ∀ (texts : List String) (init : List Track),
      texts.foldl (fun found text =>
        (extract_track_info_with_dates text).foldl (search_step a c) found) init =
      ((texts.map extract_track_info_with_dates).flatten).foldl (search_step a c) init := by
  intro texts
  induction texts with
  | nil => intro init; rfl
  | cons x xs ih =>
    intro init
    rw [List.foldl_cons, ih, List.map_cons, List.flatten_cons, List.foldl_append]

/-- `search_artist_tracks` is the per-artist selection applied to the
concatenation of the per-query candidate lists, in query order. -/
lemma search_artist_tracks_eq (texts : List String) (a : String) (c : Datetime) :
    search_artist_tracks texts a c =
      selectForArtist ((texts.map extract_track_info_with_dates).flatten) a c := by
  unfold search_artist_tracks selectForArtist
  rw [foldl_nested_flatten a c texts []]

lemma selectForArtist_sublist (cands : List Track) (artist : String) (cutoff : Datetime) :
    (selectForArtist cands artist cutoff).Sublist cands := by
  unfold selectForArtist
  obtain ⟨l, he, hs⟩ := foldl_step_sublist artist cutoff cands []
  rw [he]
  simp only [List.nil_append]
  exact (List.take_sublist _ _).trans hs

/-! ### The claims -/

/-- Claim C1 counterexample: in a run over the two artists Future and
Metro Boomin whose searches both return the same collaboration line, the
flat list `track_ids_to_add` contains the same id twice, so it is not
duplicate-free as the claim states. -/
theorem C1_counterexample :
    ¬ (create_weekly_playlist_track_ids [futureName, metroName]
        (fun _ => [collabLine]) cutoff0).Nodup := by decide

/-- Claim C1 (amended): ids are pairwise distinct within each per-artist
selection; the flat run-level list is the concatenation of these per-artist
lists and may repeat an id across different artists. -/
theorem C1_per_artist_ids_nodup :
    ∀ (texts : List String) (artist : String) (cutoff : Datetime),
      ((search_artist_tracks texts artist cutoff).map Track.id).Nodup := by
  intro texts artist cutoff
  rw [search_artist_tracks_eq]
  exact selectForArtist_nodup _ _ _

/-- Claim C2 counterexample: the line `c2Line` matches the candidate pattern
shape with the malformed month 13, yet `extract_track_info_with_dates` does
not exclude it — the line produces a candidate. -/
theorem C2_counterexample : extract_track_info_with_dates c2Line ≠ [] := by decide

/-- Claim C2 (amended): a line matching the pattern shape with a malformed
numeric date group is kept by the parser with its raw date token (the whole
parse never fails), and the candidate is excluded later, by the recency
filter, because `parse_spotify_date` maps the malformed token to `none`. -/
theorem C2_malformed_date_excluded_later :
    extract_track_info_with_dates c2Line = [c2Track] ∧
    (∀ (artist : String) (cutoff : Datetime),
      selectForArtist (extract_track_info_with_dates c2Line) artist cutoff = []) ∧
    (∀ cutoff : Datetime, is_recent_release c2Track.release_date cutoff = false) := by
  have hx : extract_track_info_with_dates c2Line = [c2Track] := by decide
  have hp : parse_spotify_date c2Track.release_date = none := by decide
  have hr : ∀ cutoff : Datetime, is_recent_release c2Track.release_date cutoff = false := by
    intro cutoff
    unfold is_recent_release
    rw [hp]
  refine ⟨hx, ?_, hr⟩
  intro artist cutoff
  rw [hx]
  unfold selectForArtist
  simp [search_step, hr cutoff]

/-- Claim C3: `is_recent_release` is false whenever the date is unknown
(unparseable), and on a parsed concrete date it holds exactly when
`date >= cutoff`, with the boundary date equal to the cutoff included. -/
theorem C3_is_recent_semantics :
    ∀ (cutoff : Datetime) (s : String),
      (parse_spotify_date s = none → is_recent_release s cutoff = false) ∧
      (∀ d, parse_spotify_date s = some d →
        (is_recent_release s cutoff = true ↔ Datetime.le cutoff d = true)) ∧
      (∀ d, parse_spotify_date s = some d → d = cutoff →
        is_recent_release s cutoff = true) := by
  intro cutoff s
  refine ⟨?_, ?_, ?_⟩
  · intro h
    unfold is_recent_release
    rw [h]
  · intro d h
    unfold is_recent_release
    rw [h]
  · intro d h he
    unfold is_recent_release
    rw [h]
    subst he
    exact Datetime.le_refl d

/-- Claim C3 witness: the concrete date January 1 2025 is recent for the
cutoff December 29 2024, and the literal token Unknown is not. -/
theorem C3_witness :
    is_recent_release dateJan1 cutoff0 = true ∧
    is_recent_release unknownTok cutoff0 = false := by
  constructor
  · exact ((C3_is_recent_semantics cutoff0 dateJan1).2.1 ⟨2025, 1, 1, 0, 0, 0, 0⟩
      (by decide)).mpr (by decide)
  · exact (C3_is_recent_semantics cutoff0 unknownTok).1 (by decide)

/-- Claim C4: `parse_spotify_date` is total (it returns an `Option`, never
raising): the literal Unknown, the empty string and every other-shaped or
calendar-invalid token map to `none`; well-formed 10-, 7- and 4-character
tokens map to the exact date, the first of the month and January 1
respectively; and every returned date is calendar-valid. -/
theorem C4_normalize_date :
    parse_spotify_date unknownTok = none ∧
    parse_spotify_date dateMar15 = some ⟨2025, 3, 15, 0, 0, 0, 0⟩ ∧
    parse_spotify_date dateMar = some ⟨2025, 3, 1, 0, 0, 0, 0⟩ ∧
    parse_spotify_date dateY2025 = some ⟨2025, 1, 1, 0, 0, 0, 0⟩ ∧
    parse_spotify_date emptyStr = none ∧
    parse_spotify_date badDate13 = none ∧
    (∀ y m d, 1 ≤ y → y ≤ 9999 → 1 ≤ m → m ≤ 12 → 1 ≤ d → d ≤ daysInMonth y m →
      parse_spotify_date (render10 y m d) = some ⟨y, m, d, 0, 0, 0, 0⟩) ∧
    (∀ y m, 1 ≤ y → y ≤ 9999 → 1 ≤ m → m ≤ 12 →
      parse_spotify_date (render7 y m) = some ⟨y, m, 1, 0, 0, 0, 0⟩) ∧
    (∀ y, 1 ≤ y → y ≤ 9999 → parse_spotify_date (render4 y) = some ⟨y, 1, 1, 0, 0, 0, 0⟩) ∧
    (∀ s, pyStrip s ≠ unknownTok → (pyStrip s).length ≠ 10 → (pyStrip s).length ≠ 7 →
      (pyStrip s).length ≠ 4 → parse_spotify_date s = none) ∧
    (∀ s dt, parse_spotify_date s = some dt →
      1 ≤ dt.year ∧ dt.year ≤ 9999 ∧ 1 ≤ dt.month ∧ dt.month ≤ 12 ∧ 1 ≤ dt.day ∧
        dt.day ≤ daysInMonth dt.year dt.month ∧ dt.hour = 0 ∧ dt.minute = 0 ∧
        dt.second = 0 ∧ dt.microsecond = 0) :=
  ⟨by decide, by decide, by decide, by decide, by decide, by decide,
    parse_render10, parse_render7, parse_render4, parse_other_shape, parse_sound⟩

/-- Claim C4 witness: the general shape laws evaluated at concrete tokens,
including the leap day February 29 2024. -/
theorem C4_witness :
    parse_spotify_date (render10 2024 2 29) = some ⟨2024, 2, 29, 0, 0, 0, 0⟩ ∧
    parse_spotify_date (render7 1999 12) = some ⟨1999, 12, 1, 0, 0, 0, 0⟩ ∧
    parse_spotify_date (render4 7) = some ⟨7, 1, 1, 0, 0, 0, 0⟩ :=
  ⟨C4_normalize_date.2.2.2.2.2.2.1 2024 2 29 (by decide) (by decide) (by decide)
      (by decide) (by decide) (by decide),
    C4_normalize_date.2.2.2.2.2.2.2.1 1999 12 (by decide) (by decide) (by decide) (by decide),
    C4_normalize_date.2.2.2.2.2.2.2.2.1 7 (by decide) (by decide)⟩

/-- Claim C5: the per-artist selection never returns more than 3 tracks,
whatever the inputs; later matches are simply dropped by the final cap. -/
theorem C5_cap :
    ∀ (texts : List String) (artist : String) (cutoff : Datetime) (cands : List Track),
      (search_artist_tracks texts artist cutoff).length ≤ 3 ∧
      (selectForArtist cands artist cutoff).length ≤ 3 := by
  intro texts artist cutoff cands
  constructor
  · unfold search_artist_tracks
    rw [List.length_take]
    exact Nat.min_le_left _ _
  · unfold selectForArtist
    rw [List.length_take]
    exact Nat.min_le_left _ _

/-- Claim C6: the selection output is a subsequence of the candidate input
in discovery order (and `search_artist_tracks` is a subsequence of the
concatenated per-query candidates); the code never reorders by date. -/
theorem C6_subsequence :
    ∀ (cands : List Track) (artist : String) (cutoff : Datetime) (texts : List String),
      (selectForArtist cands artist cutoff).Sublist cands ∧
      (search_artist_tracks texts artist cutoff).Sublist
        ((texts.map extract_track_info_with_dates).flatten) := by
  intro cands artist cutoff texts
  refine ⟨selectForArtist_sublist cands artist cutoff, ?_⟩
  rw [search_artist_tracks_eq]
  exact selectForArtist_sublist _ _ _

/-- Claim C7: the per-artist selection is idempotent — applying it to its
own output with the same artist and cutoff returns the output unchanged. -/
theorem C7_idempotent :
    ∀ (cands : List Track) (artist : String) (cutoff : Datetime),
      selectForArtist (selectForArtist cands artist cutoff) artist cutoff =
        selectForArtist cands artist cutoff := by
  intro cands artist cutoff
  have hmem : ∀ t ∈ selectForArtist cands artist cutoff,
      artistMatch artist t = true ∧ is_recent_release t.release_date cutoff = true := by
    intro t ht
    have hsub : (selectForArtist cands artist cutoff).Sublist
        (cands.foldl (search_step artist cutoff) []) := by
      unfold selectForArtist
      exact List.take_sublist _ _
    rcases mem_foldl_step artist cutoff cands [] t (hsub.subset ht) with habs | hp
    · simp at habs
    · exact hp
  have hnd : ((([] : List Track) ++ selectForArtist cands artist cutoff).map Track.id).Nodup := by
    simp only [List.nil_append]
    exact selectForArtist_nodup cands artist cutoff
  have hlen : (selectForArtist cands artist cutoff).length ≤ 3 := by
    unfold selectForArtist
    rw [List.length_take]
    exact Nat.min_le_left _ _
  show ((selectForArtist cands artist cutoff).foldl (search_step artist cutoff) []).take 3 =
    selectForArtist cands artist cutoff
  rw [foldl_step_replay artist cutoff (selectForArtist cands artist cutoff) [] hmem hnd]
  simp only [List.nil_append]
  exact List.take_of_length_le hlen

/-- Claim C8: the attribution filter keeps a candidate exactly when the
lower-cased query occurs as a contiguous substring of the lower-cased
artist text, and in particular the query Future matches the artist text
Metro Boomin, Future. -/
theorem C8_artist_match :
    (∀ (a : String) (t : Track),
        artistMatch a t = true ↔ (pyLower a).data <:+: (pyLower t.artist).data) ∧
    artistMatch futureName collabTrack = true := by
  constructor
  · intro a t
    unfold artistMatch
    rw [List.any_eq_true]
    constructor
    · rintro ⟨x, hx, hpre⟩
      rw [List.mem_tails] at hx
      rw [List.isPrefixOf_iff_prefix] at hpre
      exact List.infix_iff_prefix_suffix.mpr ⟨x, hpre, hx⟩
    · intro h
      rcases List.infix_iff_prefix_suffix.mp h with ⟨x, hpre, hsuf⟩
      exact ⟨x, (List.mem_tails _ _).mpr hsuf, List.isPrefixOf_iff_prefix.mpr hpre⟩
  · decide

/-- Claim C9: the per-artist selection is a pure function of its inputs —
two invocations on equal candidate lists (or equal response texts), equal
artist queries and equal cutoffs produce equal outputs; the clock enters
only through the explicit cutoff parameter. -/
theorem C9_pure_function :
    ∀ (cands1 cands2 : List Track) (a1 a2 : String) (c1 c2 : Datetime)
      (texts1 texts2 : List String),
      cands1 = cands2 → a1 = a2 → c1 = c2 → texts1 = texts2 →
      selectForArtist cands1 a1 c1 = selectForArtist cands2 a2 c2 ∧
      search_artist_tracks texts1 a1 c1 = search_artist_tracks texts2 a2 c2 := by
  rintro _ _ _ _ _ _ _ _ rfl rfl rfl rfl
  exact ⟨rfl, rfl⟩

/-- Claim C9 witness: two invocations on the same concrete inputs agree. -/
theorem C9_witness :
    selectForArtist [collabTrack] futureName cutoff0 =
      selectForArtist [collabTrack] futureName cutoff0 ∧
    search_artist_tracks [collabLine] futureName cutoff0 =
      search_artist_tracks [collabLine] futureName cutoff0 :=
  C9_pure_function [collabTrack] [collabTrack] futureName futureName cutoff0 cutoff0
    [collabLine] [collabLine] rfl rfl rfl rfl

/-- Claim C10: the extracted id is the maximal leading alphanumeric run
after the ID: marker — a line whose id token continues with a
non-alphanumeric character still produces a candidate, with the id silently
truncated there (abc-123 yields abc, a1b2!zz yields a1b2). -/
theorem C10_id_truncation :
    extract_track_info_with_dates c10Line = [c10Track] ∧
    extract_track_info_with_dates c10LineB = [c10TrackB] := by
  constructor <;> decide

end WeeklyPlaylist
